import Mathlib

/-!
Verification of the epochalyst pipeline caching subsystem and augmentation
utilities against their natural-language specification.

Shallow embedding of:
- `epochalyst/pipeline/caching/dask_array/cache_full_block.py`
  (`CacheFullBlock.transform`)
- `epochalyst/pipeline/model/transformation/transformation_block.py`
  (`TransformationBlock.transform`)
- `epochalyst/pipeline/model/training/augmentation/utils.py`
  (`NoOp`, `CustomSequential`, `AddBackgroundNoiseWrapper`)

Dask arrays are modelled as explicit deferred-computation graphs; the
filesystem is modelled as a map from paths to stored chunk stacks, together
with the set of existing directories.  Python exceptions are modelled with
`Except`.  Side effects of a `transform` call are recorded in an explicit
effect trace so that claims of the form "no filesystem access happens" and
"the user transformation is never invoked" become statements about the trace.
-/

/-- Chunked data on disk and in memory: a list of chunks, each chunk a list of
elements.  Element type `Int` stands for the numeric payload. -/
def Chunks : Type := List (List Int)

instance : DecidableEq Chunks := by
  unfold Chunks
  infer_instance

/-- Deferred computation graph of a dask array (`dask.array.Array`).
`fromNpyStack path` is the graph produced by `da.from_npy_stack(path)`: a
single leaf reading chunk files from `path`.  `source` is an in-memory rooted
array.  `mapAdd c a` is an elementwise deferred operation layered on top of
`a`, standing for arbitrary upstream work and giving graphs of any depth. -/
inductive DaskArray : Type
  | fromNpyStack (path : String)
  | source (chunks : Chunks)
  | mapAdd (c : Int) (a : DaskArray)
deriving DecidableEq

/-- Depth of the deferred computation graph of a dask array. -/
def DaskArray.depth : DaskArray → Nat
  | .fromNpyStack _ => 1
  | .source _ => 1
  | .mapAdd _ a => 1 + a.depth

/-- The chunk-stack contents of the filesystem: for each path, the complete
chunk-stack entry stored there (`none` when no complete entry exists).  This
is the state read by `da.from_npy_stack` and written by `da.to_npy_stack`. -/
def Store : Type := String → Option Chunks

/-- Materialize (compute) a dask array against the chunk-stack store:
evaluates the deferred graph, reading persisted chunk stacks at
`fromNpyStack` leaves.  `none` when a leaf reads a path with no entry. -/
def materialize (st : Store) : DaskArray → Option Chunks
  | .fromNpyStack path => st path
  | .source chunks => some chunks
  | .mapAdd c a => (materialize st a).map (fun cs => cs.map (List.map (· + c)))

/-- Filesystem state: the chunk-stack store plus the set of directories that
exist (read by `os.path.exists`, extended by `os.makedirs`). -/
structure Fs : Type where
  store : Store
  dirs : String → Bool

/-- Effect of `os.makedirs(p)`: the directory at `p` now exists; the
chunk-stack store is untouched. -/
def makedirs (fs : Fs) (p : String) : Fs :=
  { fs with dirs := fun q => q = p || fs.dirs q }

/-- Effect of `da.to_npy_stack(path, X)`: computes `X` against the current
store and persists the resulting chunk stack at `path`. -/
def toNpyStack (fs : Fs) (path : String) (X : DaskArray) : Fs :=
  { fs with store := fun p => if p = path then materialize fs.store X else fs.store p }

/-- The exception raised by the caching pipeline
(`epochalyst.pipeline.caching.error.CachePipelineError`). -/
structure CachePipelineError : Type where
  msg : String
deriving DecidableEq

/-- One observable filesystem side effect of a `CacheFullBlock.transform`
call: an existence check of the stored data, a directory creation, or a
chunk-stack write. -/
inductive Eff : Type
  | existsCheck (p : String)
  | mkdir (p : String)
  | writeStack (p : String)
deriving DecidableEq

/-- Modelled from the spec: `BaseCacheBlock._data_exists` (the file
`base_cache_block.py` is not part of the given sources).  Per the spec, if a
complete chunk-stack directory already exists at the path (checked via the
backend existence check), it directly constructs a lazy handle that reads
the existing chunks; otherwise it reports no data. -/
def dataExists (fs : Fs) (path : String) : Option DaskArray :=
  if (fs.store path).isSome then some (DaskArray.fromNpyStack path) else none

/-- Embedding of `CacheFullBlock.transform(self, X)` from
`cache_full_block.py`.  `data_path` is the block's `data_path` field; the
Python truthiness test `not self.data_path` is the emptiness test on the
string.  Returns the result (or raised exception), the resulting filesystem,
and the trace of filesystem effects in order. -/
def cacheFullTransform (data_path : String) (X : DaskArray) (fs : Fs) :
    Except CachePipelineError DaskArray × Fs × List Eff :=
  if data_path = "" then
    (Except.error ⟨"data_path is required"⟩, fs, [])
  else
    match dataExists fs data_path with
    | some array => (Except.ok array, fs, [Eff.existsCheck data_path])
    | none =>
      let step : Fs × List Eff :=
        if fs.dirs data_path then (fs, [])
        else (makedirs fs data_path, [Eff.mkdir data_path])
      let fs2 := toNpyStack step.1 data_path X
      (Except.ok (DaskArray.fromNpyStack data_path), fs2,
        Eff.existsCheck data_path :: step.2 ++ [Eff.writeStack data_path])

/-- Cache arguments recognized by `TransformationBlock.transform`, per its
docstring: the output data type, the storage type, and the storage path. -/
structure CacheArgs : Type where
  output_data_type : String
  storage_type : String
  storage_path : String
deriving DecidableEq

/-- Modelled from the spec: the state behind the `_Cacher` primitives
(`epochalyst/_core/_caching/_cacher.py` is not part of the given sources).
Per the spec, CacheManager resolves the descriptor to a storage backend at
the descriptor's path; a cache store maps a cache key (step hash) and cache
arguments to the stored artifact, when one exists. -/
def CacheStore (β : Type) : Type := String → CacheArgs → Option β

/-- Modelled from the spec: `_Cacher._cache_exists(name, cache_args)` is the
backend existence check — true iff a complete entry is present for the key
and descriptor. -/
def cacheExistsCheck {β : Type} (st : CacheStore β) (name : String) (ca : CacheArgs) : Bool :=
  (st name ca).isSome

/-- Modelled from the spec: `_Cacher._store_cache(name, data, cache_args)`
delegates to the backend save: it records the artifact under the key and
descriptor and has no other effect. -/
def storeCache {β : Type} (st : CacheStore β) (name : String) (v : β) (ca : CacheArgs) :
    CacheStore β :=
  fun n c => if n = name ∧ c = ca then some v else st n c

/-- One observable effect of a `TransformationBlock.transform` call: a cache
existence check, a cache load, a cache store, or an invocation of the
user-supplied `custom_transform`. -/
inductive CEff : Type
  | cacheCheck
  | cacheLoad
  | cacheStore
  | userTransform
deriving DecidableEq

/-- Embedding of `TransformationBlock.transform(self, data, cache_args={},
**transform_args)` from `transformation_block.py`.  `hash` is
`self.get_hash()` (supplied by the external agogos `Transformer`), `custom`
is the user-supplied `custom_transform`, `targs` packs the keyword
`transform_args`.  `cache_args` is `some ca` for a populated dict and `none`
for the default empty (falsy) dict.  Matching on the stored entry embeds the
`_cache_exists` test followed by `_get_cache` (both are the same backend
lookup, modelled from the spec).  Returns the result, the resulting cache
store, and the trace of effects in order. -/
def tbTransform {α β γ : Type} (hash : String) (custom : α → γ → β) (data : α) (targs : γ)
    (cache_args : Option CacheArgs) (cache : CacheStore β) :
    β × CacheStore β × List CEff :=
  match cache_args with
  | some ca =>
    match cache hash ca with
    | some v => (v, cache, [CEff.cacheCheck, CEff.cacheLoad])
    | none =>
      let r := custom data targs
      (r, storeCache cache hash r ca, [CEff.cacheCheck, CEff.userTransform, CEff.cacheStore])
  | none =>
    let r := custom data targs
    (r, cache, [CEff.userTransform])

/-- A torch tensor, as passed through the augmentation utilities; the payload
is carried, never inspected. -/
structure Tensor : Type where
  data : List Float

/-- Embedding of the `NoOp` dataclass from `utils.py`: the no-operation
augmentation, carrying the configured probability `p` (default 0.5). -/
structure NoOp : Type where
  p : Float

/-- Embedding of `NoOp.__call__(self, x)`: the body is `return x`. -/
def noOpCall (_self : NoOp) (x : Tensor) : Tensor := x

/-- Embedding of the `CustomSequential` dataclass from `utils.py`: lists of
x-transforms and xy-transforms applied sequentially without probabilities. -/
structure CustomSequential : Type where
  x_transforms : List (Tensor → Tensor)
  xy_transforms : List (Tensor → Tensor → Tensor × Tensor)

/-- Embedding of `CustomSequential.__call__(self, x, y)`: the two Python for
loops over `self.x_transforms` and `self.xy_transforms` are left folds (the
`is not None` guards always hold for list-valued fields). -/
def customSequentialCall (s : CustomSequential) (x y : Tensor) : Tensor × Tensor :=
  let x1 := s.x_transforms.foldl (fun a t => t a) x
  let p := s.xy_transforms.foldl (fun q t => t q.1 q.2) (x1, y)
  (p.1, p.2)

/-- Statement of claim C10 in the spec's words, written independently of the
loop embedding: apply each x-transform to x in list order. -/
def applyXList : List (Tensor → Tensor) → Tensor → Tensor
  | [], x => x
  | t :: ts, x => applyXList ts (t x)

/-- Statement of claim C10 in the spec's words: apply each xy-transform to
the pair in list order. -/
def applyXYList : List (Tensor → Tensor → Tensor × Tensor) → Tensor → Tensor → Tensor × Tensor
  | [], x, y => (x, y)
  | t :: ts, x, y => applyXYList ts (t x y).1 (t x y).2

/-- A Python value as it appears in the attribute dictionaries of
`AddBackgroundNoiseWrapper`: `None`, a string, a numeric literal (identified
by its literal text; no arithmetic is performed on it), or the
audiomentations augmentation object built in `__post_init__`. -/
inductive PyVal : Type
  | pyNone
  | pyStr (s : String)
  | pyNum (lit : String)
  | augObject
deriving DecidableEq

/-- A Python instance: its `__dict__`, an association list of attributes. -/
structure PyInstance : Type where
  dict : List (String × PyVal)

/-- Lookup of a name in an attribute dictionary. -/
def lookupAttr (l : List (String × PyVal)) (n : String) : Option PyVal :=
  (l.find? (fun e => e.1 = n)).map (fun e => e.2)

/-- A Python `AttributeError`, carrying the missing attribute name. -/
structure PyAttributeError : Type where
  name : String
deriving DecidableEq

/-- Python attribute access `self.n`: the instance `__dict__` first, then the
class attributes, else `AttributeError`.  Dataclass fields declared with a
plain default (`aug: Any = None`) remain as class attributes. -/
def getAttr (inst : PyInstance) (cls : List (String × PyVal)) (n : String) :
    Except PyAttributeError PyVal :=
  match lookupAttr inst.dict n with
  | some v => Except.ok v
  | none =>
    match lookupAttr cls n with
    | some v => Except.ok v
    | none => Except.error ⟨n⟩

/-- Class attributes of the `AddBackgroundNoiseWrapper` dataclass: the field
defaults `p=0.5`, `sounds_path="data/raw/"`, `min_snr_db=-3.0`,
`max_snr_db=3.0`, `aug=None` remain on the class. -/
def abnwClassAttrs : List (String × PyVal) :=
  [("p", .pyNum "0.5"), ("sounds_path", .pyStr "data/raw/"),
   ("min_snr_db", .pyNum "-3.0"), ("max_snr_db", .pyNum "3.0"),
   ("aug", .pyNone)]

/-- Python attribute assignment `self.n = v` on the instance `__dict__`. -/
def setAttr (inst : PyInstance) (n : String) (v : PyVal) : PyInstance :=
  ⟨(n, v) :: inst.dict.filter (fun e => ¬ e.1 = n)⟩

/-- Construction of `AddBackgroundNoiseWrapper()` with all defaults: the
generated `__init__` writes each field default into the instance `__dict__`,
then `__post_init__` runs: when CUDA is available it builds the
audiomentations augmentation and assigns it to `self.aug`, otherwise it
assigns `None`; in either case it then replaces the whole instance
`__dict__` with the placeholder dictionary. -/
def mkAddBackgroundNoiseWrapper (cudaAvailable : Bool) : PyInstance :=
  let inst : PyInstance := ⟨abnwClassAttrs⟩
  let inst2 := if cudaAvailable then setAttr inst "aug" .augObject else setAttr inst "aug" .pyNone
  { inst2 with dict := [("Placeholder", .pyStr "Remove Later")] }

/-- Embedding of `AddBackgroundNoiseWrapper.__call__(self, x, sr)`: reads
`self.aug`; when it is not `None` it applies the wrapped augmentation
(`runAug` stands for the external audiomentations call), otherwise it
returns `x` unchanged.  An `AttributeError` from the attribute lookup
propagates. -/
def abnwCall {α : Type} (runAug : α → Int → α) (inst : PyInstance) (x : α) (sr : Int) :
    Except PyAttributeError α :=
  match getAttr inst abnwClassAttrs "aug" with
  | Except.error e => Except.error e
  | Except.ok v => if v = PyVal.pyNone then Except.ok x else Except.ok (runAug x sr)

/-- An empty filesystem: no stored chunk stacks, no directories. -/
def fsEmptyW : Fs := ⟨fun _ => none, fun _ => false⟩

/-- A filesystem whose target directory is already populated with a complete
chunk-stack entry at path d. -/
def fsPopW : Fs := ⟨fun p => if p = "d" then some [[1, 2], [3]] else none, fun p => p = "d"⟩

/-- Concrete cache arguments, as in the `TransformationBlock` docstring. -/
def caW : CacheArgs := ⟨"dask_array", ".npy_stack", "data/processed"⟩

/-- A cache store pre-populated with an entry for key h under `caW`. -/
def cacheW : CacheStore Nat := fun n c => if n = "h" ∧ c = caW then some 42 else none

/-- C1: if cache arguments are supplied to `TransformationBlock.transform`
and the cache entry for the step's hash and cache arguments exists, the call
returns the stored artifact loaded from the cache and `custom_transform` is
never invoked (no `userTransform` effect occurs). -/
theorem tb_cache_hit {α β γ : Type} (hash : String) (custom : α → γ → β) (data : α)
    (targs : γ) (ca : CacheArgs) (cache : CacheStore β) (v : β)
    (hv : cache hash ca = some v) :
    (tbTransform hash custom data targs (some ca) cache).1 = v ∧
    CEff.userTransform ∉ (tbTransform hash custom data targs (some ca) cache).2.2 := by
  simp [tbTransform, hv]

/-- Witness for C1 at a concrete populated cache store. -/
theorem tb_cache_hit_witness :
    (tbTransform "h" (fun (d : Nat) (_ : Unit) => d + 1) 0 () (some caW) cacheW).1 = 42 ∧
    CEff.userTransform ∉ (tbTransform "h" (fun (d : Nat) (_ : Unit) => d + 1) 0 () (some caW) cacheW).2.2 :=
  tb_cache_hit "h" (fun d _ => d + 1) 0 () caW cacheW 42 (by decide)

/-- C7: if no cache arguments are supplied (the default empty, falsy dict),
`TransformationBlock.transform` returns exactly `custom_transform(data,
transform_args)`, the cache store is unchanged, and the effect trace holds
no cache existence check, no cache load, and no cache store. -/
theorem tb_no_cache {α β γ : Type} (hash : String) (custom : α → γ → β) (data : α)
    (targs : γ) (cache : CacheStore β) :
    tbTransform hash custom data targs none cache =
      (custom data targs, cache, [CEff.userTransform]) := rfl

/-- C4: when the configured storage path of `CacheFullBlock` is empty or
unset, `transform` raises `CachePipelineError` immediately: the filesystem
is returned unchanged and the effect trace is empty — no cache lookup, no
computation, no directory creation, no write. -/
theorem cache_full_empty_path (X : DaskArray) (fs : Fs) :
    cacheFullTransform "" X fs = (Except.error ⟨"data_path is required"⟩, fs, []) := rfl

/-- C5: when the target directory already holds a complete chunk-stack
entry, `CacheFullBlock.transform` performs zero chunk writes (the
filesystem is returned unchanged and the only effect is the existence
check) and returns a lazy handle reading the existing chunks at the path. -/
theorem cache_full_idempotent (path : String) (X : DaskArray) (fs : Fs)
    (hpath : path ≠ "") (hpop : (fs.store path).isSome) :
    cacheFullTransform path X fs =
      (Except.ok (DaskArray.fromNpyStack path), fs, [Eff.existsCheck path]) := by
  simp [cacheFullTransform, hpath, dataExists, hpop]

/-- Witness for C5 at a concrete pre-populated filesystem: the second run
leaves the filesystem untouched. -/
theorem cache_full_idempotent_witness :
    cacheFullTransform "d" (.mapAdd 3 (.source [[9]])) fsPopW =
      (Except.ok (DaskArray.fromNpyStack "d"), fsPopW, [Eff.existsCheck "d"]) :=
  cache_full_idempotent "d" (.mapAdd 3 (.source [[9]])) fsPopW (by decide) (by decide)

/-- C3: whatever the depth of the deferred computation graph of the input,
the handle returned by `CacheFullBlock.transform` is `da.from_npy_stack`
of the configured path: its computation graph has depth 1 and its single
upstream node reads the chunk files at that path. -/
theorem cache_full_depth_one (path : String) (X : DaskArray) (fs : Fs)
    (hpath : path ≠ "") :
    (cacheFullTransform path X fs).1 = Except.ok (DaskArray.fromNpyStack path) ∧
    (DaskArray.fromNpyStack path).depth = 1 := by
  refine ⟨?_, rfl⟩
  by_cases h : (fs.store path).isSome <;>
    simp [cacheFullTransform, hpath, dataExists, h]

/-- Witness for C3 at a depth-4 input graph on an empty filesystem. -/
theorem cache_full_depth_one_witness :
    (cacheFullTransform "d" (.mapAdd 1 (.mapAdd 2 (.mapAdd 3 (.source [[0]])))) fsEmptyW).1 =
        Except.ok (DaskArray.fromNpyStack "d") ∧
    (DaskArray.fromNpyStack "d").depth = 1 :=
  cache_full_depth_one "d" (.mapAdd 1 (.mapAdd 2 (.mapAdd 3 (.source [[0]])))) fsEmptyW
    (by decide)

/-- C2: on a cache miss (no complete entry at the path), after storage the
`CacheFullBlock.transform` call returns the rebound lazy handle reading
from the persisted path — not the original in-memory graph — and the
persisted entry at the path holds the materialization of the input. -/
theorem cache_full_miss_rebind (path : String) (X : DaskArray) (fs : Fs)
    (hpath : path ≠ "") (hmiss : dataExists fs path = none) :
    (cacheFullTransform path X fs).1 = Except.ok (DaskArray.fromNpyStack path) ∧
    (cacheFullTransform path X fs).2.1.store path = materialize fs.store X := by
  by_cases hd : fs.dirs path <;>
    simp [cacheFullTransform, hpath, hmiss, hd, toNpyStack, makedirs]

/-- Witness for C2 at a concrete miss on an empty filesystem. -/
theorem cache_full_miss_rebind_witness :
    (cacheFullTransform "d" (.mapAdd 1 (.source [[1, 2]])) fsEmptyW).1 =
        Except.ok (DaskArray.fromNpyStack "d") ∧
    (cacheFullTransform "d" (.mapAdd 1 (.source [[1, 2]])) fsEmptyW).2.1.store "d" =
        materialize fsEmptyW.store (.mapAdd 1 (.source [[1, 2]])) :=
  cache_full_miss_rebind "d" (.mapAdd 1 (.source [[1, 2]])) fsEmptyW (by decide) (by decide)

/-- C6: saving a chunked array (writing its chunk stack at the path on a
miss) followed by loading through the returned handle yields the same chunk
list — element-wise equal with the same chunk structure. -/
theorem cache_full_roundtrip (path : String) (X : DaskArray) (fs : Fs) (chunks : Chunks)
    (hpath : path ≠ "") (hmiss : dataExists fs path = none)
    (hX : materialize fs.store X = some chunks) :
    ∃ R, (cacheFullTransform path X fs).1 = Except.ok R ∧
      materialize (cacheFullTransform path X fs).2.1.store R = some chunks := by
  refine ⟨DaskArray.fromNpyStack path, ?_, ?_⟩ <;>
    by_cases hd : fs.dirs path <;>
      simp [cacheFullTransform, hpath, hmiss, hd, toNpyStack, makedirs, materialize, hX]

/-- Witness for C6 at a concrete array with two chunks. -/
theorem cache_full_roundtrip_witness :
    ∃ R, (cacheFullTransform "d" (.mapAdd 1 (.source [[1, 2], [3]])) fsEmptyW).1 =
        Except.ok R ∧
      materialize (cacheFullTransform "d" (.mapAdd 1 (.source [[1, 2], [3]])) fsEmptyW).2.1.store
        R = some [[2, 3], [4]] :=
  cache_full_roundtrip "d" (.mapAdd 1 (.source [[1, 2], [3]])) fsEmptyW [[2, 3], [4]]
    (by decide) (by decide) (by decide)

/-- C9: `NoOp.__call__` is the identity on its input tensor, regardless of
the configured probability `p`. -/
theorem noop_identity (n : NoOp) (x : Tensor) : noOpCall n x = x := rfl

/-- Helper: the left fold of the x-transform loop equals in-order
application. -/
theorem applyXList_eq_foldl (ts : List (Tensor → Tensor)) (x : Tensor) :
    List.foldl (fun a t => t a) x ts = applyXList ts x := by
  induction ts generalizing x with
  | nil => rfl
  | cons t ts ih => simpa [applyXList] using ih (t x)

/-- Helper: the left fold of the xy-transform loop equals in-order
application. -/
theorem applyXYList_eq_foldl (ts : List (Tensor → Tensor → Tensor × Tensor))
    (x y : Tensor) :
    List.foldl (fun q t => t q.1 q.2) (x, y) ts = applyXYList ts x y := by
  induction ts generalizing x y with
  | nil => rfl
  | cons t ts ih => simpa [applyXYList] using ih (t x y).1 (t x y).2

/-- C10: `CustomSequential.__call__` applies each x-transform to x in list
order, then each xy-transform to the pair in list order, and returns the
result; with both lists empty it returns the pair unchanged. -/
theorem custom_sequential_in_order (s : CustomSequential) (x y : Tensor) :
    customSequentialCall s x y =
      applyXYList s.xy_transforms (applyXList s.x_transforms x) y ∧
    customSequentialCall ⟨[], []⟩ x y = (x, y) := by
  refine ⟨?_, rfl⟩
  simp [customSequentialCall, applyXList_eq_foldl, applyXYList_eq_foldl]

/-- C8 counterexample: on an instance built by the dataclass constructor,
`AddBackgroundNoiseWrapper.__call__` returns normally with the input — it
does not raise `AttributeError`, because the wiped instance `__dict__`
falls back to the class-level dataclass default `aug = None`. -/
theorem abnw_call_returns_normally :
    abnwCall (fun (x : Nat) (_ : Int) => x + 1) (mkAddBackgroundNoiseWrapper false) 7 32000 =
      Except.ok 7 := rfl

/-- C8 amended: `__post_init__` replaces the instance `__dict__` with the
placeholder, so `self.aug` resolves to the class-level dataclass default
`None`; every subsequent call therefore skips the augmentation branch and
returns its input unchanged, raising nothing and never invoking the wrapped
augmentation, whether or not CUDA was available at construction. -/
theorem abnw_call_identity {α : Type} (runAug : α → Int → α) (cudaAvailable : Bool)
    (x : α) (sr : Int) :
    abnwCall runAug (mkAddBackgroundNoiseWrapper cudaAvailable) x sr = Except.ok x := by
  cases cudaAvailable <;> rfl
